import Mathlib

/-
Verification of the measurement-and-recording pipeline of `probe.py`
(network probing agent: gateway discovery, ICMP statistical probing,
reachability scoring, sqlite store with backup, CSV export mirror,
fixed-interval collection loop).

Shallow embedding conventions:
* Python floats are idealised as exact rationals (`ℚ`).
* `round(x, 2)` / `round(x)` are embedded as exact rounding of a rational
  to the nearest hundredth / integer, ties to even (Python's rounding mode).
* Sub-process execution (`subprocess.check_output` for `ping`, `ipconfig`,
  `ip route`, ...) is embedded by passing the *outcome* of the call as an
  explicit argument: `none` models a raised exception, `some v` models a
  successful call whose output parses to `v`.
* The filesystem (data file, backup file, CSV mirror) is explicit state.
-/

namespace NetProbe

/-- Rounding of a rational to the nearest integer, ties to even:
the embedding of Python's built-in `round(x)`. -/
def pyRoundInt (x : ℚ) : ℤ :=
  if x - ⌊x⌋ < 1/2 then ⌊x⌋
  else if (1 : ℚ)/2 < x - ⌊x⌋ then ⌊x⌋ + 1
  else if ⌊x⌋ % 2 = 0 then ⌊x⌋ else ⌊x⌋ + 1

/-- Rounding of a rational to two decimal places, ties to even:
the embedding of Python's `round(x, 2)`. -/
def round2 (x : ℚ) : ℚ :=
  (pyRoundInt (100 * x) : ℚ) / 100

/-- Arithmetic mean of a list of rationals: `statistics.mean`. -/
def mean (s : List ℚ) : ℚ :=
  s.sum / s.length

/-- Sample variance (denominator `n - 1`): the square of `statistics.stdev`. -/
def sampleVariance (s : List ℚ) : ℚ :=
  ((s.map (fun x => (x - mean s) ^ 2)).sum) / ((s.length : ℚ) - 1)

/-- Integer core of the rounded square root: for `v = n / d` it computes
`round(100 * sqrt(n / d))`, ties to even.  `Nat.sqrt (40000 * n * d) / d`
is `⌊200 * √(n/d)⌋`; the guard detects the exact tie `200 * √(n/d)` odd. -/
def sqrtRound2Nat (n d : ℕ) : ℕ :=
  let N := 40000 * n * d
  let s := Nat.sqrt N
  let q := s / d
  if s * s = N ∧ s % d = 0 ∧ q % 2 = 1 then
    (if ((q - 1) / 2) % 2 = 0 then (q - 1) / 2 else (q + 1) / 2)
  else (q + 1) / 2

/-- Embedding of `round(sqrt v, 2)` for a nonnegative rational `v`, computed
exactly with integer square roots: the result is the multiple of `1/100`
nearest to `√v`, ties to even.  Used to embed
`round(statistics.stdev(times), 2)` with `v` the sample variance. -/
def sqrtRound2 (v : ℚ) : ℚ :=
  (sqrtRound2Nat v.num.toNat v.den : ℚ) / 100

/-- Result triple of `ping_router`: in the source each component may be
`None`, so all three are `Option`. -/
structure ProbeResult where
  latency : Option ℚ
  packet_loss : Option ℚ
  jitter : Option ℚ
  deriving DecidableEq, Repr

/-- Embedding of `ping_router(ip, count)` (probe.py lines 82-98).
`replies` is the outcome of the batched ping subprocess: `none` when
`subprocess.check_output` raises (caught by the bare `except`, returning
`(None, None, None)`), `some times` when it succeeds and the regex
parses the reply-time series `times` from the output. -/
def ping_router (replies : Option (List ℚ)) (count : ℕ) : ProbeResult :=
  match replies with
  | none => ⟨none, none, none⟩
  | some times =>
    { latency := if times.isEmpty then none else some (round2 (mean times))
      packet_loss := some (100 * ((count : ℚ) - times.length) / count)
      jitter := some (if 1 < times.length then sqrtRound2 (sampleVariance times) else 0) }

/-- Embedding of `check_gateway_reachability(ip, count)` (probe.py lines
179-193).  `ip = none` models the gateway-resolution failure case: `main`
passes the `None` returned by `get_default_gateway_ip`, and building the
ping command with a `None` target makes the subprocess call raise, landing
in the handler.  `received = none` models a raised subprocess call
(e.g. `ping` exits nonzero when every probe is lost); `some k` models a
successful batch whose output contains `k` reply times. -/
def check_gateway_reachability (ip : Option String) (received : Option ℕ)
    (count : ℕ) : String :=
  match ip, received with
  | none, _ => "unknown"
  | some _, none => "unknown"
  | some _, some k => toString (pyRoundInt ((k : ℚ) / count * 100)) ++ "%"

/-- Outcome of one OS query strategy: outer `none` = the subprocess raised,
`some none` = it ran but the regex found no match, `some (some ip)` = a
gateway address was parsed. -/
abbrev StrategyOutcome := Option (Option String)

/-- Embedding of the first `get_default_gateway_ip` (probe.py lines 41-52):
on any exception or regex miss it returns the string sentinel "unknown".
This definition is shadowed by the later one and never called by `main`. -/
def get_default_gateway_ip_v1 (res : StrategyOutcome) : String :=
  match res with
  | some (some ip) => ip
  | _ => "unknown"

/-- Embedding of the second `get_default_gateway_ip` (probe.py lines
137-177), the definition that shadows the first and is the one `main`
invokes.  On Windows it parses `ipconfig`; on Linux/Darwin it parses
`ip route`, falling back to `route -n` only when the `ip route`
subprocess raises (a regex miss on successful output falls through
without trying the fallback); every failure path ends in `return None`. -/
def get_default_gateway_ip_v2 (sysName : String)
    (winRes ipRouteRes routeRes : StrategyOutcome) : Option String :=
  if sysName = "Windows" then
    match winRes with
    | some (some ip) => some ip
    | _ => none
  else if sysName = "Linux" ∨ sysName = "Darwin" then
    match ipRouteRes with
    | some (some ip) => some ip
    | some none => none
    | none =>
      match routeRes with
      | some (some ip) => some ip
      | _ => none
  else none

/-- One row of the `new_probe_logs` table, in column order of the schema
(probe.py lines 229-247); the auto-increment `id` is represented by the
row's position in the list.  `latency`, `jitter`, `packet_loss`,
`download_speed`, `upload_speed` are REAL columns that may be NULL. -/
structure Row where
  date : String
  time : String
  router_ip : String
  router_mac : String
  interface : String
  latency : Option ℚ
  jitter : Option ℚ
  packet_loss : Option ℚ
  signal_strength : String
  download_speed : Option ℚ
  upload_speed : Option ℚ
  isp_name : String
  gw_reach : String
  interface_ip : String
  deriving DecidableEq, Repr

/-- Content of the sqlite data file: `table = none` models a database file
that does not contain the `new_probe_logs` table, `some rows` models the
table holding `rows` in insertion (id) order. -/
structure DBContent where
  table : Option (List Row)
  deriving DecidableEq, Repr

/-- Content of the CSV mirror: `headerRows` counts how many header lines
have been written to the file, `rows` the data rows in append order. -/
structure CSVContent where
  headerRows : ℕ
  rows : List Row
  deriving DecidableEq, Repr

/-- Filesystem state seen by the program: the data file `data.db`, the
backup file `data_backup.db` and the mirror `new_probe_logs.csv`;
`none` models an absent file. -/
structure SysState where
  db : Option DBContent
  backup : Option DBContent
  csv : Option CSVContent
  deriving DecidableEq, Repr

/-- Embedding of `initialize_database()` (probe.py lines 222-250): when the
data file exists, `shutil.copy` first duplicates it verbatim onto the
backup path, overwriting any previous backup; then `sqlite3.connect`
(which creates the data file when absent) runs
`CREATE TABLE IF NOT EXISTS new_probe_logs`, a no-op when the table is
already present. -/
def init_database (st : SysState) : SysState :=
  let backed : SysState :=
    match st.db with
    | some d => { st with backup := some d }
    | none => st
  let ensured : DBContent :=
    match backed.db with
    | some d =>
      match d.table with
      | some _ => d
      | none => { table := some [] }
    | none => { table := some [] }
  { backed with db := some ensured }

/-- Embedding of `log_to_db(timestamp, router_ip, router_mac, latency,
packet_loss, jitter, signal_strength, download_speed, upload_speed,
isp_name, gw_reach, interface_ip)` (probe.py lines 206-220).  The body
recomputes `interface = get_active_interface()` and `now = datetime.now()`
itself; those environment reads enter as the `iface`, `nowDate`, `nowTime`
arguments.  The stored `date`/`time` columns come from `now`; the
`timestamp` parameter is never read by the body.  `none` models the
`sqlite3` INSERT raising (data file or table missing), an exception that
nothing in `main` catches. -/
def log_to_db (st : SysState) (timestamp : String)
    (iface nowDate nowTime : String)
    (router_ip router_mac : String) (latency packet_loss jitter : Option ℚ)
    (signal_strength : String) (download_speed upload_speed : Option ℚ)
    (isp_name gw_reach interface_ip : String) : Option SysState :=
  let row : Row :=
    { date := nowDate, time := nowTime, router_ip := router_ip,
      router_mac := router_mac, interface := iface, latency := latency,
      jitter := jitter, packet_loss := packet_loss,
      signal_strength := signal_strength, download_speed := download_speed,
      upload_speed := upload_speed, isp_name := isp_name,
      gw_reach := gw_reach, interface_ip := interface_ip }
  match st.db with
  | some d =>
    match d.table with
    | some rows => some { st with db := some { table := some (rows ++ [row]) } }
    | none => none
  | none => none

/-- Embedding of `export_to_csv(db_path, csv_path)` (probe.py lines
252-277).  When the database file is missing the function prints and
returns, leaving the filesystem unchanged; `none` models the `SELECT`
raising because the table is missing.  Otherwise: `file_exists` is checked
before opening the mirror in append mode (which creates it when absent),
the fixed header row is written exactly when the file did not exist, and
the most recent table row (`ORDER BY id DESC LIMIT 1`) is appended when
the table is nonempty. -/
def export_to_csv (st : SysState) : Option SysState :=
  match st.db with
  | none => some st
  | some d =>
    match d.table with
    | none => none
    | some rows =>
      let base : CSVContent :=
        match st.csv with
        | some c => c
        | none => { headerRows := 0, rows := [] }
      let withHeader : CSVContent :=
        if st.csv.isSome then base
        else { base with headerRows := base.headerRows + 1 }
      let final : CSVContent :=
        match rows.getLast? with
        | some r => { withHeader with rows := withHeader.rows ++ [r] }
        | none => withHeader
      some { st with csv := some final }

/-- Environment of one iteration of `main`'s loop: the outcome of every
external observation the body makes, in source order. -/
structure CycleEnv where
  gatewaySys : String
  gatewayWin : StrategyOutcome
  gatewayIpRoute : StrategyOutcome
  gatewayRouteFallback : StrategyOutcome
  timestamp : String
  router_ip : String
  router_mac : String
  pingReplies : Option (List ℚ)
  signal_strength : String
  download_speed : Option ℚ
  upload_speed : Option ℚ
  isp_name : String
  gwReceived : Option ℕ
  interface_ip : String
  iface : String
  nowDate : String
  nowTime : String
  deriving Repr

/-- Embedding of one iteration of the `while True` body of `main`
(probe.py lines 283-320): resolve the gateway with the second (shadowing)
`get_default_gateway_ip`, take the cycle-start timestamp, probe the router,
query the collaborators, check gateway reachability; when the probe's
latency is `None` skip logging and export and sleep 50 seconds, otherwise
append one row, export, and sleep 300 seconds.  The returned number is the
`time.sleep` duration ending the iteration; `none` models an exception
escaping the body (nothing inside the loop catches one). -/
def runCycle (env : CycleEnv) (st : SysState) : Option (SysState × ℕ) :=
  let gateway_ip := get_default_gateway_ip_v2 env.gatewaySys env.gatewayWin
    env.gatewayIpRoute env.gatewayRouteFallback
  let pr := ping_router env.pingReplies 10
  let gw_reach := check_gateway_reachability gateway_ip env.gwReceived 10
  match pr.latency with
  | none => some (st, 50)
  | some _ =>
    match log_to_db st env.timestamp env.iface env.nowDate env.nowTime
        env.router_ip env.router_mac pr.latency pr.packet_loss pr.jitter
        env.signal_strength env.download_speed env.upload_speed
        env.isp_name gw_reach env.interface_ip with
    | none => none
    | some st1 =>
      match export_to_csv st1 with
      | none => none
      | some st2 => some (st2, 300)

/-- Transcription of the claim predicate: a stored row carries all three
probe statistics. -/
def rowStatsPresent (r : Row) : Bool :=
  r.latency.isSome && r.jitter.isSome && r.packet_loss.isSome

/-- Observation helper: the data rows of the CSV mirror (empty when the
file is absent). -/
def csvRows (st : SysState) : List Row :=
  match st.csv with
  | some c => c.rows
  | none => []

/-- Observation helper: how many header lines the CSV mirror holds
(0 when the file is absent). -/
def csvHeaderRows (st : SysState) : ℕ :=
  match st.csv with
  | some c => c.headerRows
  | none => 0

/-- Observation helper: the rows of the `new_probe_logs` table (empty when
the data file or the table is absent). -/
def dbRows (st : SysState) : List Row :=
  match st.db with
  | some d => d.table.getD []
  | none => []

/-- Concrete fixtures used to exercise the theorems at specific inputs. -/
def sampleRow : Row :=
  { date := "2025-01-01", time := "12:00:00", router_ip := "192.168.1.1",
    router_mac := "aa:bb:cc:dd:ee:ff", interface := "eth0",
    latency := some 21, jitter := some 1, packet_loss := some 70,
    signal_strength := "50%", download_speed := none, upload_speed := none,
    isp_name := "MyISP", gw_reach := "70%", interface_ip := "10.0.0.2" }

/-- A filesystem state with a one-row store, no backup and no mirror. -/
def oneRowState : SysState :=
  { db := some { table := some [sampleRow] }, backup := none, csv := none }

/-- Characterisation of `sqrtRound2Nat`: writing `m` for the result and
`v = n / d` for the input, `m / 100` is a multiple of `1/100` whose distance
to `√v` is at most `1/200`, stated multiplied out over the integers. -/
theorem sqrtRound2Nat_spec (n d : ℕ) (hd : 0 < d) :
    40000 * n * d ≤ (2 * sqrtRound2Nat n d + 1) ^ 2 * d ^ 2 ∧
    (sqrtRound2Nat n d = 0 ∨
      (2 * sqrtRound2Nat n d - 1) ^ 2 * d ^ 2 ≤ 40000 * n * d) := by
  simp only [sqrtRound2Nat]
  set N := 40000 * n * d with hN
  set s := Nat.sqrt N with hs
  set q := s / d with hq
  have hA : s ^ 2 ≤ N := Nat.sqrt_le' N
  have hB : N < (s + 1) ^ 2 := Nat.lt_succ_sqrt' N
  have hC : q * d ≤ s := Nat.div_mul_le_self s d
  have hD : s < (q + 1) * d := (Nat.div_lt_iff_lt_mul hd).mp (Nat.lt_succ_self q)
  clear_value N s q
  have lower : ∀ m : ℕ, 2 * m ≤ q + 1 →
      m = 0 ∨ (2 * m - 1) ^ 2 * d ^ 2 ≤ N := by
    intro m hm
    rcases Nat.eq_zero_or_pos m with h0 | h1
    · exact Or.inl h0
    · right
      have h2 : (2 * m - 1) * d ≤ q * d := Nat.mul_le_mul_right d (by omega)
      calc (2 * m - 1) ^ 2 * d ^ 2 = ((2 * m - 1) * d) ^ 2 := by ring
        _ ≤ (q * d) ^ 2 := Nat.pow_le_pow_left h2 2
        _ ≤ s ^ 2 := Nat.pow_le_pow_left hC 2
        _ ≤ N := hA
  have upper : ∀ m : ℕ, q ≤ 2 * m → N ≤ (2 * m + 1) ^ 2 * d ^ 2 := by
    intro m hm
    have h1 : s + 1 ≤ (q + 1) * d := hD
    have h2 : (q + 1) * d ≤ (2 * m + 1) * d := Nat.mul_le_mul_right d (by omega)
    calc N ≤ (s + 1) ^ 2 := le_of_lt hB
      _ ≤ ((2 * m + 1) * d) ^ 2 := Nat.pow_le_pow_left (le_trans h1 h2) 2
      _ = (2 * m + 1) ^ 2 * d ^ 2 := by ring
  split
  case isTrue h =>
    obtain ⟨hss, hmod, hodd⟩ := h
    have hsd : q * d = s := by
      rw [hq]
      exact Nat.div_mul_cancel (Nat.dvd_of_mod_eq_zero hmod)
    have hNq : N = q ^ 2 * d ^ 2 := by
      calc N = s * s := hss.symm
        _ = (q * d) * (q * d) := by rw [hsd]
        _ = q ^ 2 * d ^ 2 := by ring
    split
    case isTrue h2 =>
      have he : 2 * ((q - 1) / 2) + 1 = q := by omega
      refine ⟨?_, lower _ (by omega)⟩
      rw [he]
      exact le_of_eq hNq
    case isFalse h2 =>
      exact ⟨upper _ (by omega), lower _ (by omega)⟩
  case isFalse h =>
    exact ⟨upper _ (by omega), lower _ (by omega)⟩

/-- Characterisation of `sqrtRound2`: the result is `m / 100` for a natural
`m` with `(m - 1/2)² ≤ 10000 v ≤ (m + 1/2)²` (lower bound waived at `m = 0`),
i.e. the multiple of `1/100` nearest to the square root of `v` — stated here
scaled by `200²` to stay inside `ℚ`. -/
theorem sqrtRound2_spec (v : ℚ) (hv : 0 ≤ v) :
    ∃ m : ℕ, sqrtRound2 v = (m : ℚ) / 100 ∧
      40000 * v ≤ (2 * (m : ℚ) + 1) ^ 2 ∧
      (m = 0 ∨ (2 * (m : ℚ) - 1) ^ 2 ≤ 40000 * v) := by
  have hd : 0 < v.den := v.den_pos
  have hdq : (0 : ℚ) < (v.den : ℚ) := by exact_mod_cast hd
  have hn : (v.num.toNat : ℤ) = v.num := Int.toNat_of_nonneg (Rat.num_nonneg.mpr hv)
  have h2 : (v.num : ℚ) = v * v.den := by
    have h := Rat.num_div_den v
    rw [div_eq_iff (ne_of_gt hdq)] at h
    exact h
  have hnum : ((v.num.toNat : ℕ) : ℚ) = v * v.den := by
    calc ((v.num.toNat : ℕ) : ℚ) = ((v.num.toNat : ℤ) : ℚ) := by push_cast; ring
      _ = (v.num : ℚ) := by rw [hn]
      _ = v * v.den := h2
  obtain ⟨hu, hl⟩ := sqrtRound2Nat_spec v.num.toNat v.den hd
  set m := sqrtRound2Nat v.num.toNat v.den with hm
  refine ⟨m, rfl, ?_, ?_⟩
  · have h1' : ((40000 * v.num.toNat * v.den : ℕ) : ℚ) ≤
        (((2 * m + 1) ^ 2 * v.den ^ 2 : ℕ) : ℚ) := by exact_mod_cast hu
    push_cast at h1'
    rw [hnum] at h1'
    nlinarith [mul_pos hdq hdq]
  · rcases Nat.eq_zero_or_pos m with hm0 | hm1
    · exact Or.inl hm0
    · right
      rcases hl with h0 | hl
      · omega
      · have hone : 1 ≤ 2 * m := by omega
        have hcast : ((2 * m - 1 : ℕ) : ℚ) = 2 * (m : ℚ) - 1 := by
          push_cast [Nat.cast_sub hone]
          ring
        have h2' : (((2 * m - 1) ^ 2 * v.den ^ 2 : ℕ) : ℚ) ≤
            ((40000 * v.num.toNat * v.den : ℕ) : ℚ) := by exact_mod_cast hl
        push_cast [hcast] at h2'
        rw [hnum] at h2'
        nlinarith [mul_pos hdq hdq]

theorem pyRoundInt_bounds (x : ℚ) :
    x - 1/2 ≤ (pyRoundInt x : ℚ) ∧ (pyRoundInt x : ℚ) ≤ x + 1/2 := by
  have h1 : ((⌊x⌋ : ℤ) : ℚ) ≤ x := Int.floor_le x
  have h2 : x < (⌊x⌋ : ℚ) + 1 := Int.lt_floor_add_one x
  unfold pyRoundInt
  split_ifs with ha hb hc <;> constructor <;> push_cast <;> linarith

theorem sampleVariance_nonneg (s : List ℚ) (h : 2 ≤ s.length) :
    0 ≤ sampleVariance s := by
  unfold sampleVariance
  apply div_nonneg
  · apply List.sum_nonneg
    intro x hx
    obtain ⟨y, _, rfl⟩ := List.mem_map.mp hx
    positivity
  · have : (2 : ℚ) ≤ (s.length : ℚ) := by exact_mod_cast h
    linarith

theorem sqrt_forty_thousand : Nat.sqrt 40000 = 200 :=
  (Nat.eq_sqrt.mpr (by norm_num)).symm

/-- C2: for a probe batch whose parsed reply-time series is non-empty,
`ping_router` returns `latency_ms` equal to the arithmetic mean of the
series rounded to 2 decimals, and `latency_ms` is absent exactly when the
series is empty; `jitter_ms` is exactly `0.0` when the series has fewer
than 2 elements, and when it has at least 2 it is `m / 100` for the
natural `m` nearest to `100·stdev` (the sample standard deviation rounded
to 2 decimals, characterised by `(2m-1)² ≤ 40000·variance ≤ (2m+1)²`);
for replies `[20, 22, 21]` latency is `21.0` and jitter `1.0`. -/
theorem c2_probe_statistics (times : List ℚ) (count : ℕ) (h : times ≠ []) :
    (ping_router (some times) count).latency = some (round2 (mean times)) ∧
    (ping_router (some []) count).latency = none ∧
    (times.length < 2 → (ping_router (some times) count).jitter = some 0) ∧
    (2 ≤ times.length →
      ∃ m : ℕ, (ping_router (some times) count).jitter = some ((m : ℚ) / 100) ∧
        40000 * sampleVariance times ≤ (2 * (m : ℚ) + 1) ^ 2 ∧
        (m = 0 ∨ (2 * (m : ℚ) - 1) ^ 2 ≤ 40000 * sampleVariance times)) ∧
    ping_router (some [20, 22, 21]) 10 = ⟨some 21, some 70, some 1⟩ := by
  refine ⟨?_, rfl, ?_, ?_, ?_⟩
  · simp [ping_router, h]
  · intro hlt
    have : ¬ (1 < times.length) := by omega
    simp [ping_router, this]
  · intro hge
    have h1 : 1 < times.length := by omega
    obtain ⟨m, hm, hu, hl⟩ := sqrtRound2_spec (sampleVariance times)
      (sampleVariance_nonneg times hge)
    exact ⟨m, by simp [ping_router, h1, hm], hu, hl⟩
  · have h1 : mean [20, 22, 21] = 21 := by norm_num [mean]
    have h2 : sampleVariance [20, 22, 21] = 1 := by
      norm_num [sampleVariance, h1]
    have h3 : sqrtRound2 1 = 1 := by
      norm_num [sqrtRound2, sqrtRound2Nat, sqrt_forty_thousand]
    norm_num [ping_router, round2, pyRoundInt, h1, h2, h3]

/-- C2 witness at the series `[20, 22, 21]`. -/
theorem c2_probe_statistics_witness :
    (ping_router (some [20, 22, 21]) 10).latency
      = some (round2 (mean [20, 22, 21])) :=
  (c2_probe_statistics [20, 22, 21] 10 (by simp)).1

/-- C3: for a probe batch with `count > 0` probes and `k ≤ count` parsed
replies, `ping_router` reports `packet_loss_pct = 100·(count-k)/count`,
and that value lies in `[0, 100]`. -/
theorem c3_packet_loss (times : List ℚ) (count : ℕ)
    (hc : 0 < count) (hk : times.length ≤ count) :
    (ping_router (some times) count).packet_loss
      = some (100 * ((count : ℚ) - times.length) / count) ∧
    0 ≤ 100 * ((count : ℚ) - times.length) / count ∧
    100 * ((count : ℚ) - times.length) / count ≤ 100 := by
  have hc' : (0 : ℚ) < (count : ℚ) := by exact_mod_cast hc
  have hk' : (times.length : ℚ) ≤ (count : ℚ) := by exact_mod_cast hk
  have hk0 : (0 : ℚ) ≤ (times.length : ℚ) := by positivity
  refine ⟨rfl, ?_, ?_⟩
  · apply div_nonneg _ (le_of_lt hc')
    linarith
  · rw [div_le_iff₀ hc']
    linarith

/-- C3 witness: 3 replies out of 10 probes give 70% loss. -/
theorem c3_packet_loss_witness :
    (ping_router (some [20, 22, 21]) 10).packet_loss
      = some (100 * ((10 : ℚ) - (3 : ℕ)) / 10) ∧
    (0 : ℚ) ≤ 100 * ((10 : ℚ) - (3 : ℕ)) / 10 ∧
    100 * ((10 : ℚ) - (3 : ℕ)) / 10 ≤ 100 := by
  have h := c3_packet_loss [20, 22, 21] 10 (by norm_num) (by norm_num)
  simpa using h

/-- C4 counterexample: when the ping subprocess raises, `ping_router`
returns `(None, None, None)`, not the empty-series result
`(None, 100, 0.0)` — the claim that an execution error "returns the same
result as for an empty reply series" with "jitter_ms 0.0, packet_loss_pct
100" is false on the code. -/
theorem c4_error_not_empty_series :
    ping_router none 10 ≠ ping_router (some []) 10 ∧
    (ping_router none 10).jitter = none ∧
    (ping_router none 10).packet_loss = none ∧
    (ping_router (some []) 10).jitter = some 0 ∧
    (ping_router (some []) 10).packet_loss = some 100 := by
  refine ⟨?_, rfl, rfl, by norm_num [ping_router], by norm_num [ping_router]⟩
  intro hEq
  have h := congrArg ProbeResult.jitter hEq
  simp [ping_router] at h

/-- C4 amended: when the ping execution errors, `ping_router` returns the
all-`None` triple — `latency_ms` absent as in the empty-series case, but
`jitter_ms` and `packet_loss_pct` are also absent rather than `0.0` and
`100`; no exception propagates (the handler yields a value), and the
caller's guard observes the failure solely through `latency_ms` being
absent, exactly as for an empty series. -/
theorem c4_error_degrades (count : ℕ) :
    ping_router none count = ⟨none, none, none⟩ ∧
    (ping_router none count).latency = (ping_router (some []) count).latency := by
  exact ⟨rfl, rfl⟩

/-- C9 counterexample: a successful ping batch with zero parsed replies
makes `ping_router` return latency `None` together with `packet_loss = 100`
and `jitter = 0.0` — neither a complete statistics triple nor all-`None` —
refuting the claimed dichotomy of the probe primitive. -/
theorem c9_incomplete_triple :
    ¬ (((ping_router (some []) 10).latency.isSome ∧
        (ping_router (some []) 10).packet_loss.isSome ∧
        (ping_router (some []) 10).jitter.isSome) ∨
       ((ping_router (some []) 10).latency = none ∧
        (ping_router (some []) 10).packet_loss = none ∧
        (ping_router (some []) 10).jitter = none)) := by
  simp [ping_router]

/-- C9 amended: `ping_router` never returns a present latency with either
other statistic absent — whenever `latency` is present so are
`packet_loss` and `jitter` (the third case, an empty series, has latency
absent with the other two present) — hence the loop's skip guard on
latency alone suffices: every row a cycle appends to the store has all
three probe statistics present. -/
theorem c9_guard_suffices (inp : Option (List ℚ)) (count : ℕ)
    (env : CycleEnv) (st st' : SysState) (w : ℕ) (rows : List Row)
    (hdb : st.db = some { table := some rows })
    (hrows : ∀ r ∈ rows, rowStatsPresent r = true)
    (hrun : runCycle env st = some (st', w)) :
    (∀ l, (ping_router inp count).latency = some l →
      (ping_router inp count).packet_loss.isSome = true
        ∧ (ping_router inp count).jitter.isSome = true) ∧
    ∃ rows', st'.db = some { table := some rows' } ∧
      ∀ r ∈ rows', rowStatsPresent r = true := by
  constructor
  · intro l hl
    rcases inp with _ | times
    · simp [ping_router] at hl
    · rcases hemp : times.isEmpty with _ | _
      · simp [ping_router, hemp]
      · simp [ping_router, hemp] at hl
  · rcases hp : env.pingReplies with _ | times
    · rw [runCycle, hp] at hrun
      simp [ping_router] at hrun
      exact ⟨rows, by rw [← hrun.1, hdb], hrows⟩
    · rcases hemp : times.isEmpty with _ | _
      · -- non-empty series: one complete row is appended
        rw [runCycle, hp] at hrun
        simp only [ping_router, hemp, Bool.false_eq_true, if_false,
          log_to_db, export_to_csv, hdb, List.getLast?_concat,
          Option.some.injEq, Prod.mk.injEq] at hrun
        obtain ⟨hst, _⟩ := hrun
        refine ⟨_, by rw [← hst], ?_⟩
        intro r hr
        rcases List.mem_append.mp hr with h | h
        · exact hrows r h
        · simp only [List.mem_singleton] at h
          subst h
          simp [rowStatsPresent]
      · -- empty series: latency is None, cycle skips
        rw [runCycle, hp] at hrun
        simp only [ping_router, hemp, if_true] at hrun
        simp at hrun
        exact ⟨rows, by rw [← hrun.1, hdb], hrows⟩

/-- C9 witness: a skipping cycle (ping subprocess raised) over an empty
store preserves the all-statistics-present invariant. -/
theorem c9_guard_suffices_witness :
    (∀ l, (ping_router none 10).latency = some l →
      (ping_router none 10).packet_loss.isSome = true
        ∧ (ping_router none 10).jitter.isSome = true) ∧
    ∃ rows', (⟨some ⟨some []⟩, none, none⟩ : SysState).db
        = some { table := some rows' } ∧
      ∀ r ∈ rows', rowStatsPresent r = true :=
  c9_guard_suffices none 10
    ⟨"Linux", none, some none, none, "ts", "192.168.1.1", "aa:bb:cc:dd:ee:ff",
      none, "50%", none, none, "ISP", some 7, "10.0.0.2", "eth0",
      "2025-01-01", "12:00:00"⟩
    ⟨some ⟨some []⟩, none, none⟩ ⟨some ⟨some []⟩, none, none⟩ 50 []
    rfl (by simp) rfl

/-- C7: when the reachability batch executes with `k ≤ count` replies,
`check_gateway_reachability` returns an integer percentage string: the
integer is within 1/2 of the exact `k/count·100` (its rounding) and lies
in `[0, 100]`; when the batch raises, or when the gateway was not resolved
(the `None` target makes the ping call raise into the handler), it
returns "unknown" — and the function is total, so the cycle continues
without crashing. -/
theorem c7_reachability (ip : String) (k count : ℕ) (r : Option ℕ)
    (hc : 0 < count) (hk : k ≤ count) :
    (∃ p : ℤ, check_gateway_reachability (some ip) (some k) count
        = toString p ++ "%" ∧
      (k : ℚ) / count * 100 - 1/2 ≤ (p : ℚ) ∧
      (p : ℚ) ≤ (k : ℚ) / count * 100 + 1/2 ∧
      0 ≤ p ∧ p ≤ 100) ∧
    check_gateway_reachability (some ip) none count = "unknown" ∧
    check_gateway_reachability none r count = "unknown" := by
  have hc' : (0 : ℚ) < (count : ℚ) := by exact_mod_cast hc
  have hk' : (k : ℚ) ≤ (count : ℚ) := by exact_mod_cast hk
  have hb := pyRoundInt_bounds ((k : ℚ) / count * 100)
  have h0 : 0 ≤ pyRoundInt ((k : ℚ) / count * 100) := by
    have hx0 : (0 : ℚ) ≤ (k : ℚ) / count * 100 := by positivity
    by_contra hneg
    push_neg at hneg
    have h1 : pyRoundInt ((k : ℚ) / count * 100) ≤ -1 := by omega
    have h2 : ((pyRoundInt ((k : ℚ) / count * 100)) : ℚ) ≤ -1 := by
      exact_mod_cast h1
    linarith [hb.1]
  have h100 : pyRoundInt ((k : ℚ) / count * 100) ≤ 100 := by
    have hle : (k : ℚ) / count * 100 ≤ 100 := by
      rw [div_mul_eq_mul_div, div_le_iff₀ hc']
      linarith
    by_contra hgt
    push_neg at hgt
    have h1 : (101 : ℤ) ≤ pyRoundInt ((k : ℚ) / count * 100) := by omega
    have h2 : (101 : ℚ) ≤ ((pyRoundInt ((k : ℚ) / count * 100)) : ℚ) := by
      exact_mod_cast h1
    linarith [hb.2]
  exact ⟨⟨pyRoundInt ((k : ℚ) / count * 100), rfl, hb.1, hb.2, h0, h100⟩,
    rfl, rfl⟩

/-- C7 witness at 7 replies out of 10 probes. -/
theorem c7_reachability_witness :
    (∃ p : ℤ, check_gateway_reachability (some "192.168.1.1") (some 7) 10
        = toString p ++ "%" ∧
      (7 : ℚ) / 10 * 100 - 1/2 ≤ (p : ℚ) ∧
      (p : ℚ) ≤ (7 : ℚ) / 10 * 100 + 1/2 ∧
      0 ≤ p ∧ p ≤ 100) ∧
    check_gateway_reachability (some "192.168.1.1") none 10 = "unknown" ∧
    check_gateway_reachability none (some 3) 10 = "unknown" := by
  have h := c7_reachability "192.168.1.1" 7 10 (some 3) (by norm_num)
    (by norm_num)
  simpa using h

/-- C10: the gateway-resolution routine `main` actually invokes (the later
definition of `get_default_gateway_ip`, which shadows the earlier one)
returns `None` — not the "unknown" sentinel string the shadowed earlier
definition would return — whenever no strategy parses a default gateway;
the cycle still reports gateway reachability "unknown" only because
probing the `None` target fails inside `check_gateway_reachability`'s
handler. -/
theorem c10_shadowed_resolution (sysName : String)
    (winRes ipRouteRes routeRes : StrategyOutcome)
    (hwin : winRes = none ∨ winRes = some none)
    (hip : ipRouteRes = none ∨ ipRouteRes = some none)
    (hroute : routeRes = none ∨ routeRes = some none)
    (rcv : Option ℕ) (cnt : ℕ) :
    get_default_gateway_ip_v2 sysName winRes ipRouteRes routeRes = none ∧
    (∀ s : String,
      get_default_gateway_ip_v2 sysName winRes ipRouteRes routeRes ≠ some s) ∧
    get_default_gateway_ip_v1 winRes = "unknown" ∧
    check_gateway_reachability
      (get_default_gateway_ip_v2 sysName winRes ipRouteRes routeRes)
      rcv cnt = "unknown" := by
  have hv2 : get_default_gateway_ip_v2 sysName winRes ipRouteRes routeRes
      = none := by
    unfold get_default_gateway_ip_v2
    rcases hwin with h1 | h1 <;> rcases hip with h2 | h2 <;>
      rcases hroute with h3 | h3 <;> subst h1 <;> subst h2 <;> subst h3 <;>
      split_ifs <;> rfl
  have hv1 : get_default_gateway_ip_v1 winRes = "unknown" := by
    rcases hwin with h1 | h1 <;> subst h1 <;> rfl
  refine ⟨hv2, ?_, hv1, by rw [hv2]; cases rcv <;> rfl⟩
  intro s
  rw [hv2]
  simp

/-- C10 witness: on Linux with `ip route` running but matching nothing and
`route -n` raising, resolution yields `None` and reachability "unknown". -/
theorem c10_shadowed_resolution_witness :
    get_default_gateway_ip_v2 "Linux" none (some none) none = none ∧
    (∀ s : String,
      get_default_gateway_ip_v2 "Linux" none (some none) none ≠ some s) ∧
    get_default_gateway_ip_v1 none = "unknown" ∧
    check_gateway_reachability
      (get_default_gateway_ip_v2 "Linux" none (some none) none)
      (some 5) 10 = "unknown" :=
  c10_shadowed_resolution "Linux" none (some none) none
    (Or.inl rfl) (Or.inr rfl) (Or.inl rfl) (some 5) 10

/-- C1: a cycle persists a sample iff latency is present.  When the probe
yields no latency the body appends no store row, writes no export row
(the filesystem is unchanged) and sleeps the 50-second backoff; when
latency is present exactly one row is appended to the table, exactly that
row is appended to the mirror, and the body sleeps the full 300-second
interval. -/
theorem c1_persist_iff_latency (env : CycleEnv) (st : SysState)
    (rows : List Row) (hdb : st.db = some { table := some rows }) :
    ((ping_router env.pingReplies 10).latency = none →
      runCycle env st = some (st, 50)) ∧
    (∀ l, (ping_router env.pingReplies 10).latency = some l →
      ∃ st' r, runCycle env st = some (st', 300) ∧
        st'.db = some { table := some (rows ++ [r]) } ∧
        ∃ c', st'.csv = some c' ∧ c'.rows = csvRows st ++ [r]) := by
  rcases st with ⟨db0, b0, c0⟩
  simp only at hdb
  subst hdb
  constructor
  · intro hnone
    simp only [runCycle, hnone]
  · intro l hl
    rcases c0 with _ | c <;>
      · simp only [runCycle, hl, log_to_db, export_to_csv,
          List.getLast?_concat, csvRows]
        exact ⟨_, _, rfl, rfl, _, rfl, rfl⟩

/-- C1 witness: a successful cycle over an empty store appends and exports
exactly one row. -/
theorem c1_persist_iff_latency_witness :
    ∃ st' r, runCycle
        ⟨"Linux", none, some none, none, "ts", "192.168.1.1",
          "aa:bb:cc:dd:ee:ff", some [20, 22, 21], "50%", none, none, "ISP",
          some 7, "10.0.0.2", "eth0", "2025-01-01", "12:00:00"⟩
        ⟨some { table := some [] }, none, none⟩ = some (st', 300) ∧
      st'.db = some { table := some ([] ++ [r]) } ∧
      ∃ c', st'.csv = some c' ∧
        c'.rows = csvRows ⟨some { table := some [] }, none, none⟩ ++ [r] :=
  (c1_persist_iff_latency _ _ [] rfl).2 21
    (by norm_num [ping_router, mean, round2, pyRoundInt])

/-- C5 counterexample: calling `initialize_database` twice on a data file
that exists but does not yet contain the table leaves a backup reflecting
the state after the first call created the table, not the first call's
pre-existing state. -/
theorem c5_backup_not_first_state :
    (init_database (init_database
        ⟨some { table := none }, none, none⟩)).backup
      ≠ some { table := none } := by
  simp [init_database]

/-- C5 amended: `initialize_database` copies the existing data file
verbatim to the backup path before ensuring the schema (the backup
reflects the pre-call state), overwrites any earlier backup, and never
alters stored rows; called twice in a row on a data file that already
contains the table, the single backup equals the first call's pre-existing
state.  (Without the table already present the second backup instead
reflects the table created by the first call.) -/
theorem c5_backup_then_schema (st : SysState) (d : DBContent)
    (rows : List Row) (hdb : st.db = some d) (htab : d.table = some rows) :
    (init_database st).backup = some d ∧
    (init_database st).db = some d ∧
    (init_database st).csv = st.csv ∧
    init_database (init_database st)
      = { db := some d, backup := some d, csv := st.csv } := by
  rcases st with ⟨db0, b0, c0⟩
  rcases d with ⟨t⟩
  simp only at hdb htab
  subst hdb
  subst htab
  exact ⟨rfl, rfl, rfl, rfl⟩

/-- C5 witness: double initialisation over a one-row store with an older
backup and an existing mirror. -/
theorem c5_backup_then_schema_witness :
    (init_database ⟨some { table := some [] }, some { table := none },
        some ⟨1, []⟩⟩).backup = some { table := some [] } ∧
    (init_database ⟨some { table := some [] }, some { table := none },
        some ⟨1, []⟩⟩).db = some { table := some [] } ∧
    (init_database ⟨some { table := some [] }, some { table := none },
        some ⟨1, []⟩⟩).csv
      = (⟨some { table := some [] }, some { table := none },
          some ⟨1, []⟩⟩ : SysState).csv ∧
    init_database (init_database ⟨some { table := some [] },
        some { table := none }, some ⟨1, []⟩⟩)
      = { db := some { table := some [] }, backup := some { table := some [] },
          csv := (⟨some { table := some [] }, some { table := none },
            some ⟨1, []⟩⟩ : SysState).csv } :=
  c5_backup_then_schema _ _ [] rfl rfl

/-- C6: `export_to_csv` opens the mirror in append mode, writes the fixed
header row iff the mirror does not yet exist (its header count gains 1
exactly when the file was absent, so the header appears exactly once),
and appends exactly one data row, the most recently appended table row;
consequently after a successful cycle the mirror's last row equals the
store's last row and — when the mirror did not outgrow the store before —
the mirror's row count does not exceed the store's. -/
theorem c6_export_latest (st : SysState) (rows : List Row)
    (hdb : st.db = some { table := some rows }) (hne : rows ≠ []) :
    (∃ c' : CSVContent, export_to_csv st = some { st with csv := some c' } ∧
      c'.rows = csvRows st ++ [rows.getLast hne] ∧
      c'.headerRows
        = csvHeaderRows st + (if st.csv.isSome then 0 else 1)) ∧
    (∀ env st', runCycle env st = some (st', 300) →
      (csvRows st).length ≤ rows.length →
      (st.csv = none ∨ csvHeaderRows st = 1) →
      (csvRows st').getLast? = (dbRows st').getLast? ∧
      (csvRows st').length ≤ (dbRows st').length ∧
      csvHeaderRows st' = 1) := by
  rcases st with ⟨db0, b0, c0⟩
  simp only at hdb
  subst hdb
  constructor
  · rcases c0 with _ | c
    · refine ⟨⟨1, [rows.getLast hne]⟩, ?_, by simp [csvRows],
        by simp [csvHeaderRows]⟩
      simp [export_to_csv, List.getLast?_eq_getLast_of_ne_nil hne]
    · refine ⟨⟨c.headerRows, c.rows ++ [rows.getLast hne]⟩, ?_,
        by simp [csvRows], by simp [csvHeaderRows]⟩
      simp [export_to_csv, List.getLast?_eq_getLast_of_ne_nil hne]
  · intro env st' hrun hlen hheader
    rcases hp : env.pingReplies with _ | times
    · rw [runCycle, hp] at hrun
      simp [ping_router] at hrun
    · rcases hemp : times.isEmpty with _ | _
      · rw [runCycle, hp] at hrun
        simp only [ping_router, hemp, Bool.false_eq_true, if_false,
          log_to_db, export_to_csv, List.getLast?_concat,
          Option.some.injEq, Prod.mk.injEq] at hrun
        obtain ⟨hst, _⟩ := hrun
        subst hst
        rcases c0 with _ | c
        · simp [csvRows, csvHeaderRows, dbRows, List.getLast?_concat]
        · rcases hheader with h | h
          · simp at h
          · simp only [csvHeaderRows] at h
            simp [csvRows, csvHeaderRows, dbRows, List.getLast?_concat, h]
            simp [csvRows] at hlen
            omega
      · rw [runCycle, hp] at hrun
        simp [ping_router, hemp] at hrun

/-- C6 witness: export over a one-row table and an absent mirror file. -/
theorem c6_export_latest_witness :
    (∃ c' : CSVContent, export_to_csv oneRowState
        = some { oneRowState with csv := some c' } ∧
      c'.rows = csvRows oneRowState
        ++ [List.getLast [sampleRow] (by simp)] ∧
      c'.headerRows = csvHeaderRows oneRowState
        + (if oneRowState.csv.isSome then 0 else 1)) ∧
    (∀ (env : CycleEnv) (st' : SysState),
      runCycle env oneRowState = some (st', 300) →
      (csvRows oneRowState).length ≤ [sampleRow].length →
      (oneRowState.csv = none ∨ csvHeaderRows oneRowState = 1) →
      (csvRows st').getLast? = (dbRows st').getLast? ∧
      (csvRows st').length ≤ (dbRows st').length ∧
      csvHeaderRows st' = 1) :=
  c6_export_latest oneRowState [sampleRow] rfl (by simp)

/-- C8: the stored `date`/`time` columns come from the `datetime.now()`
taken inside `log_to_db` at insert time; the `timestamp` captured at
cycle start and passed in is ignored, so a cycle starting at
`2025-01-01 12:00:00` whose insert happens at `12:01:05` stores
`12:01:05`, contradicting the claim that `captured_at` is the wall-clock
at cycle start. -/
theorem c8_now_recorded_not_cycle_start :
    ∃ st' : SysState,
      log_to_db ⟨some { table := some [] }, none, none⟩
        "2025-01-01 12:00:00" "eth0" "2025-01-01" "12:01:05"
        "192.168.1.1" "aa:bb:cc:dd:ee:ff" (some 21) (some 70) (some 1)
        "50%" none none "MyISP" "70%" "10.0.0.2" = some st' ∧
      ∃ r : Row, st'.db = some { table := some [r] } ∧
        r.date = "2025-01-01" ∧ r.time = "12:01:05" ∧
        r.date ++ " " ++ r.time ≠ "2025-01-01 12:00:00" :=
  ⟨_, rfl, _, rfl, rfl, rfl, by decide⟩

end NetProbe
